import Mathlib

/-!
Verification development for the frisbee framed-connection engine.

The Go source is embedded shallowly:

* bytes are `Nat` values below 256; byte slices are `List Nat`;
* the fixed-width big-endian field codec (`binary.BigEndian.PutUint32`,
  `PutUint64`, `Uint32`, `Uint64`) becomes explicit arithmetic with
  division and remainder by powers of two;
* the underlying `net.Conn` is modelled as an in-memory byte sink that
  always accepts bytes, so the I/O-failure branches of the buffered
  writer never fire; `closeWithError`, which the source invokes on read
  and write failures, is modelled in full over an arbitrary error value;
* Go `error` results become `Option GoError` (with `none` for Go `nil`),
  and the sentinel error values of the package become constructors of
  the inductive type `GoError`.
-/

namespace Frisbee

/-- Errors of the frisbee package. `timeoutErr` stands for any error for
which `os.IsTimeout` reports true, `otherErr` for any other non-nil I/O
error; the remaining constructors are the package's sentinel error
values and the standard library's `io.EOF` and `io.ErrClosedPipe`. -/
inductive GoError where
  | ConnectionClosed
  | ConnectionPaused
  | ConnectionNotInitialized
  | InvalidContentLength
  | InvalidBufferLength
  | InvalidBufferContents
  | QueueClosed
  | EOF
  | ErrClosedPipe
  | timeoutErr (code : Nat)
  | otherErr (code : Nat)
deriving DecidableEq

/-- Embedding of `os.IsTimeout`: only deadline-exceeded errors report
true; none of the sentinel errors nor `io.EOF` is a timeout. -/
def isTimeout : GoError → Bool
  | .timeoutErr _ => true
  | _ => false

/-- The frisbee message header (`protocol.Message` / `frisbee.Message`):
`From`, `To`, `Operation` are `uint32`; `Id`, `ContentLength` are
`uint64`. Field values are `Nat` with the width bounds stated where a
theorem needs them. -/
structure Message where
  From : Nat
  To : Nat
  Id : Nat
  Operation : Nat
  ContentLength : Nat
deriving DecidableEq

/-- Modelled from the spec: the reserved operation codes HEARTBEAT,
STREAM and STREAMCLOSE (their numeric values are declared outside the
provided sources; only their distinctness matters here). -/
def HEARTBEAT : Nat := 0

/-- Modelled from the spec: see `HEARTBEAT`. -/
def STREAM : Nat := 1

/-- Modelled from the spec: see `HEARTBEAT`. -/
def STREAMCLOSE : Nat := 2

/-- Modelled from the spec: the constant magic sequence written at the
front of every header (`protocol.ReservedBytes`; the spec fixes its
existence and position but not its width, taken as 4 bytes here). -/
def ReservedBytes : List Nat := [70, 82, 73, 83]

/-- Modelled from the spec: `internal/protocol` header layout. The
header is Reserved, then From (4 bytes), To (4 bytes), Id (8 bytes),
Operation (4 bytes), ContentLength (8 bytes), big-endian. -/
def ReservedOffset : Nat := 0

/-- Modelled from the spec: see `ReservedOffset`. -/
def ReservedSize : Nat := 4

/-- Modelled from the spec: see `ReservedOffset`. -/
def FromOffset : Nat := 4

/-- Modelled from the spec: see `ReservedOffset`. -/
def FromSize : Nat := 4

/-- Modelled from the spec: see `ReservedOffset`. -/
def ToOffset : Nat := 8

/-- Modelled from the spec: see `ReservedOffset`. -/
def ToSize : Nat := 4

/-- Modelled from the spec: see `ReservedOffset`. -/
def IdOffset : Nat := 12

/-- Modelled from the spec: see `ReservedOffset`. -/
def IdSize : Nat := 8

/-- Modelled from the spec: see `ReservedOffset`. -/
def OperationOffset : Nat := 20

/-- Modelled from the spec: see `ReservedOffset`. -/
def OperationSize : Nat := 4

/-- Modelled from the spec: see `ReservedOffset`. -/
def ContentLengthOffset : Nat := 24

/-- Modelled from the spec: see `ReservedOffset`. -/
def ContentLengthSize : Nat := 8

/-- Modelled from the spec: the total header width (4+4+4+8+4+8). -/
def MessageSize : Nat := 32

/-- `binary.BigEndian.PutUint32`: the four bytes of `v`, most
significant first. -/
def putUint32 (v : Nat) : List Nat :=
  [v / 16777216 % 256, v / 65536 % 256, v / 256 % 256, v % 256]

/-- `binary.BigEndian.PutUint64`: the eight bytes of `v`, most
significant first. -/
def putUint64 (v : Nat) : List Nat :=
  [v / 72057594037927936 % 256, v / 281474976710656 % 256,
   v / 1099511627776 % 256, v / 4294967296 % 256,
   v / 16777216 % 256, v / 65536 % 256, v / 256 % 256, v % 256]

/-- `binary.BigEndian.Uint32` on a 4-byte slice. -/
def beUint32 : List Nat → Nat
  | [b0, b1, b2, b3] => b0 * 16777216 + b1 * 65536 + b2 * 256 + b3
  | _ => 0

/-- `binary.BigEndian.Uint64` on an 8-byte slice. -/
def beUint64 : List Nat → Nat
  | [b0, b1, b2, b3, b4, b5, b6, b7] =>
      b0 * 72057594037927936 + b1 * 281474976710656 + b2 * 1099511627776 +
        b3 * 4294967296 + b4 * 16777216 + b5 * 65536 + b6 * 256 + b7
  | _ => 0

/-- `buf[off : off+len]` on a byte slice. -/
def slice (buf : List Nat) (off len : Nat) : List Nat :=
  (buf.drop off).take len

/-- The header encoder of `Conn.WriteMessage` (part_000 lines 159-165):
the reserved magic is copied in, then each field is written big-endian
at its fixed offset. -/
def encodeMessage (message : Message) : List Nat :=
  ReservedBytes ++ putUint32 message.From ++ putUint32 message.To ++
    putUint64 message.Id ++ putUint32 message.Operation ++
    putUint64 message.ContentLength

/-- The header decoder of the reader worker (`Conn.readLoop`,
part_000 lines 395-406): the reserved prefix is compared first
(mismatch abandons the frame), then each field is read big-endian from
its fixed offset. -/
def decodeMessage (buf : List Nat) : Option Message :=
  if slice buf ReservedOffset ReservedSize = ReservedBytes then
    some
      { From := beUint32 (slice buf FromOffset FromSize)
        To := beUint32 (slice buf ToOffset ToSize)
        Id := beUint64 (slice buf IdOffset IdSize)
        Operation := beUint32 (slice buf OperationOffset OperationSize)
        ContentLength :=
          beUint64 (slice buf ContentLengthOffset ContentLengthSize) }
  else none

/-- Concrete header used by witnesses. -/
def mEx : Message :=
  { From := 1, To := 2, Id := 3, Operation := 4, ContentLength := 2 }

/-- The connection states of part_000 lines 37-47. -/
inductive Status where
  | CONNECTED
  | CLOSED
  | PAUSED
deriving DecidableEq

/-- A sub-stream as seen from the parent's `streamConns` map: the
`closed` atomic flag and the incoming byte buffer of the
`StreamConn` object stored under its id. -/
structure StreamEntry where
  closed : Bool
  buf : List Nat
deriving DecidableEq

/-- The state of a frisbee `Conn` (part_000 lines 69-82). The
underlying `net.Conn` is an in-memory sink: `wire` collects the bytes
flushed to it, `rawClosed` records `conn.Close()`. `writerBuf` is the
content of the `bufio.Writer`, `flusherLen` the number of queued wake
signals, `queue` the contents of the incoming ring buffer, and `error`
the atomic last-error cell (`none` is Go `nil`). -/
structure Conn where
  state : Status
  error : Option GoError
  writerBuf : List Nat
  wire : List Nat
  flusherLen : Nat
  flusherClosed : Bool
  queue : List (Message × Option (List Nat))
  queueClosed : Bool
  streamConns : List (Nat × StreamEntry)
  rawClosed : Bool
deriving DecidableEq

/-- `New` (part_000 lines 105-127): state CONNECTED and, notably, the
error cell initialized to `ConnectionClosed`, not nil. -/
def Conn.new : Conn :=
  { state := .CONNECTED
    error := some .ConnectionClosed
    writerBuf := []
    wire := []
    flusherLen := 0
    flusherClosed := false
    queue := []
    queueClosed := false
    streamConns := []
    rawClosed := false }

/-- `Conn.Error` (part_000 lines 264-266): load the last-error cell. -/
def Conn.Error (c : Conn) : Option GoError :=
  c.error

/-- `Conn.killGoroutines` (part_000 lines 284-292): closes the incoming
queue and the flusher wake channel (the read-deadline juggling that
unblocks the reader is not visible in this sequential model). -/
def Conn.killGoroutines (c : Conn) : Conn :=
  { c with queueClosed := true, flusherClosed := true }

/-- `Conn.pause` (part_000 lines 294-303). -/
def Conn.pause (c : Conn) : Conn × Option GoError :=
  if c.state = .CONNECTED then
    (Conn.killGoroutines
      { c with state := .PAUSED, error := some .ConnectionPaused }, none)
  else if c.state = .PAUSED then
    (c, some .ConnectionPaused)
  else
    (c, some .ConnectionNotInitialized)

/-- `Conn.close` (part_000 lines 305-320): CONNECTED transitions to
CLOSED, stores `ConnectionClosed`, kills the workers and flushes any
buffered bytes best-effort; PAUSED transitions to CLOSED and stores
`ConnectionClosed`; otherwise the call fails with `ConnectionClosed`. -/
def Conn.close (c : Conn) : Conn × Option GoError :=
  if c.state = .CONNECTED then
    let c1 := Conn.killGoroutines
      { c with state := .CLOSED, error := some .ConnectionClosed }
    if c1.writerBuf.length > 0 then
      ({ c1 with wire := c1.wire ++ c1.writerBuf, writerBuf := [] }, none)
    else
      (c1, none)
  else if c.state = .PAUSED then
    ({ c with state := .CLOSED, error := some .ConnectionClosed }, none)
  else
    (c, some .ConnectionClosed)

/-- `Conn.closeWithError` (part_000 lines 322-346): timeouts are
returned untouched; EOF and closed-pipe pause the connection; any other
error closes it, is stored in the error cell (overwriting the
`ConnectionClosed` stored by `close`) and the raw stream is closed. -/
def Conn.closeWithError (c : Conn) (err : GoError) : Conn × Option GoError :=
  if isTimeout err then
    (c, some err)
  else if err = .EOF ∨ err = .ErrClosedPipe then
    let r := Conn.pause c
    if r.2 = some .ConnectionNotInitialized then
      (r.1, some .ConnectionNotInitialized)
    else
      (r.1, some .ConnectionPaused)
  else
    let r := Conn.close c
    if r.2 = some .ConnectionClosed then
      (r.1, some .ConnectionClosed)
    else
      ({ r.1 with error := some err, rawClosed := true }, some err)

/-- `Conn.Close` (part_000 lines 275-282): the result of `close` is
mapped to nil when it is `ConnectionClosed`; otherwise the underlying
stream is closed and the (nil) result of `close` returned. -/
def Conn.Close (c : Conn) : Conn × Option GoError :=
  let r := Conn.close c
  if r.2 = some .ConnectionClosed then
    (r.1, none)
  else
    ({ r.1 with rawClosed := true }, r.2)

/-- Appending bytes to the buffered writer (`c.writer.Write`; the
in-memory sink never fails). -/
def Conn.appendWriter (c : Conn) (bs : List Nat) : Conn :=
  { c with writerBuf := c.writerBuf ++ bs }

/-- The flush wake post of part_000 lines 198-203: a non-blocking send
performed only when the channel is empty. -/
def Conn.postFlush (c : Conn) : Conn :=
  if c.flusherLen = 0 then { c with flusherLen := 1 } else c

/-- `Conn.WriteMessage` (part_000 lines 154-208): a non-nil payload
whose length differs from `ContentLength` fails with
`InvalidContentLength` before anything else; a connection that is not
CONNECTED returns the stored error untouched; otherwise the encoded
header and then the payload (when non-nil) are written to the buffered
writer and a flush wake is posted. -/
def Conn.WriteMessage (c : Conn) (message : Message)
    (content : Option (List Nat)) : Conn × Option GoError :=
  if content ≠ none ∧ message.ContentLength ≠ (content.getD []).length then
    (c, some .InvalidContentLength)
  else if c.state ≠ .CONNECTED then
    (c, Conn.Error c)
  else
    let c1 := Conn.appendWriter c (encodeMessage message)
    let c2 := match content with
      | some p => Conn.appendWriter c1 p
      | none => c1
    (Conn.postFlush c2, none)

/-- Result of `Conn.ReadMessage`: a popped packet, a non-nil error, or
suspension on the empty open queue. -/
inductive ReadResult where
  | msg (m : Message) (content : Option (List Nat))
  | fail (e : Option GoError)
  | blocked
deriving DecidableEq

/-- `Conn.ReadMessage` (part_000 lines 212-229): a connection that is
not CONNECTED returns the stored error at once; otherwise the incoming
queue is popped (the ring buffer itself is not in the provided sources;
its Pop is modelled from the spec: the head when one exists, failure
with the queue-closed error once closed and empty, and suspension when
empty and open). A Pop failure on a still-CONNECTED connection is
remapped through `closeWithError`. -/
def Conn.ReadMessage (c : Conn) : Conn × ReadResult :=
  if c.state ≠ .CONNECTED then
    (c, .fail (Conn.Error c))
  else
    match c.queue with
    | x :: rest => ({ c with queue := rest }, .msg x.1 x.2)
    | [] =>
      if c.queueClosed then
        let r := Conn.closeWithError c .QueueClosed
        (r.1, .fail r.2)
      else
        (c, .blocked)

/-- `Conn.Flush` (part_000 lines 232-244) with the infallible sink. -/
def Conn.Flush (c : Conn) : Conn × Option GoError :=
  if c.writerBuf.length > 0 then
    ({ c with wire := c.wire ++ c.writerBuf, writerBuf := [] }, none)
  else
    (c, none)

/-- A `StreamConn` (part_000 lines 578-583): the parent connection, the
stream id, the local `closed` flag and the incoming buffer. -/
structure StreamConn where
  conn : Conn
  id : Nat
  closed : Bool
  incomingBuffer : List Nat
deriving DecidableEq

/-- `StreamConn.Write` (part_000 lines 618-670): encodes a STREAM
header carrying the stream id and the payload length (From and To stay
zero); a parent that is not CONNECTED returns 0 and the stored error, a
locally closed sub-stream returns 0 and `ConnectionClosed`; otherwise
header and payload go to the shared buffered writer, a flush wake is
posted, and the payload length is returned. -/
def StreamConn.Write (s : StreamConn) (p : List Nat) :
    StreamConn × Nat × Option GoError :=
  if s.conn.state ≠ .CONNECTED then
    (s, 0, Conn.Error s.conn)
  else if s.closed then
    (s, 0, some .ConnectionClosed)
  else
    let header := encodeMessage
      { From := 0, To := 0, Id := s.id, Operation := STREAM
        ContentLength := p.length }
    let c1 := Conn.appendWriter s.conn header
    let c2 := Conn.appendWriter c1 p
    ({ s with conn := Conn.postFlush c2 }, p.length, none)

/-- Go map deletion on the association list representing
`c.streamConns` (keys are unique). -/
def removeStream (m : List (Nat × StreamEntry)) (id : Nat) :
    List (Nat × StreamEntry) :=
  m.filter (fun q => q.1 ≠ id)

/-- Updating the entry stored under `id`. -/
def updateStream (m : List (Nat × StreamEntry)) (id : Nat)
    (f : StreamEntry → StreamEntry) : List (Nat × StreamEntry) :=
  m.map (fun q => if q.1 = id then (q.1, f q.2) else q)

/-- Outcome of one reader-worker dispatch (part_000 lines 410-525):
the updated sub-stream map, the sub-stream object that a STREAMCLOSE
removed (with its flag now set), the id of a newly created sub-stream,
the packet pushed onto the incoming queue, and the number of payload
bytes consumed from the buffer following the header. -/
structure DispatchResult where
  streamConns : List (Nat × StreamEntry)
  closedStream : Option (Nat × StreamEntry)
  newStream : Option Nat
  pushed : Option (Message × Option (List Nat))
  consumed : Nat
deriving DecidableEq

/-- The dispatch step of the reader worker on a decoded header `msg`
whose following buffered bytes are `rest` (the branch in which the
buffer already holds the whole payload; the top-up reads from the
stream are not modelled). STREAMCLOSE is handled before the payload
test: a present id has its close flag set and is deleted from the map,
an absent id leaves the map alone, and no payload bytes are consumed.
STREAM frames append the payload to the (possibly freshly created)
sub-stream's buffer; any other operation with a payload pushes a packet
carrying exactly `ContentLength` bytes; a zero `ContentLength` pushes a
packet with nil content. -/
def dispatchFrame (streams : List (Nat × StreamEntry)) (msg : Message)
    (rest : List Nat) : DispatchResult :=
  if msg.Operation = STREAMCLOSE then
    match streams.lookup msg.Id with
    | some e =>
      { streamConns := removeStream streams msg.Id
        closedStream := some (msg.Id, { e with closed := true })
        newStream := none
        pushed := none
        consumed := 0 }
    | none =>
      { streamConns := streams
        closedStream := none
        newStream := none
        pushed := none
        consumed := 0 }
  else if msg.ContentLength > 0 then
    if msg.Operation = STREAM then
      match streams.lookup msg.Id with
      | some _ =>
        { streamConns := updateStream streams msg.Id
            (fun e => { e with buf := e.buf ++ rest.take msg.ContentLength })
          closedStream := none
          newStream := none
          pushed := none
          consumed := msg.ContentLength }
      | none =>
        { streamConns := streams ++
            [(msg.Id, { closed := false, buf := rest.take msg.ContentLength })]
          closedStream := none
          newStream := some msg.Id
          pushed := none
          consumed := msg.ContentLength }
    else
      { streamConns := streams
        closedStream := none
        newStream := none
        pushed := some (msg, some (rest.take msg.ContentLength))
        consumed := msg.ContentLength }
  else
    { streamConns := streams
      closedStream := none
      newStream := none
      pushed := some (msg, none)
      consumed := 0 }

/-- Effect of one reader-worker dispatch on the connection: the updated
sub-stream map and the packet (if any) appended to the incoming
queue. -/
def Conn.applyDispatch (c : Conn) (msg : Message) (rest : List Nat) : Conn :=
  let r := dispatchFrame c.streamConns msg rest
  { c with
    streamConns := r.streamConns
    queue := c.queue ++ (match r.pushed with
      | some pk => [pk]
      | none => []) }

/-- The handler type `ClientRouterFunc` (client.go line 28); the
content argument is `none` for a Go nil slice. -/
inductive Action where
  | NONE
  | CLOSE
  | SHUTDOWN
deriving DecidableEq

/-- Handler signature from client.go line 28. -/
def ClientRouterFunc : Type :=
  Message → Option (List Nat) → Option Message × List Nat × Action

/-- The content handed to a handler (client.go lines 153-157): nil when
the incoming `ContentLength` is zero or no content accompanied the
packet, the content itself otherwise. -/
def reactorInput (msg : Message) (content : Option (List Nat)) :
    Option (List Nat) :=
  if msg.ContentLength = 0 ∨ content = none then none else content

/-- One iteration of `Client.reactor` (client.go lines 148-166) after a
packet is popped: the first component is the (header, payload) pair
handed to `WriteMessage` when a reply is written, `none` when no reply
is written; the second is the handler's action (NONE when no handler is
registered, in which case the packet is discarded). -/
def reactorStep (router : Nat → Option ClientRouterFunc) (msg : Message)
    (content : Option (List Nat)) :
    Option (Message × List Nat) × Action :=
  match router msg.Operation with
  | none => (none, .NONE)
  | some f =>
    let r := f msg (reactorInput msg content)
    match r.1 with
    | some h =>
      if h.ContentLength = r.2.1.length then
        (some (h, r.2.1), r.2.2)
      else
        (none, r.2.2)
    | none => (none, r.2.2)

/-- The reachable connection states: the image of `New` under the
modelled operations. -/
inductive Reachable : Conn → Prop where
  | new : Reachable Conn.new
  | writeMessage (c : Conn) (m : Message) (ct : Option (List Nat)) :
      Reachable c → Reachable (Conn.WriteMessage c m ct).1
  | readMessage (c : Conn) :
      Reachable c → Reachable (Conn.ReadMessage c).1
  | flushStep (c : Conn) :
      Reachable c → Reachable (Conn.Flush c).1
  | closeWithErrorStep (c : Conn) (e : GoError) :
      Reachable c → Reachable (Conn.closeWithError c e).1
  | closeStep (c : Conn) :
      Reachable c → Reachable (Conn.Close c).1
  | rawStep (c : Conn) :
      Reachable c → Reachable (Conn.close c).1
  | pauseStep (c : Conn) :
      Reachable c → Reachable (Conn.pause c).1
  | streamWriteStep (c : Conn) (id : Nat) (cl : Bool) (b p : List Nat) :
      Reachable c →
      Reachable ((StreamConn.Write ⟨c, id, cl, b⟩ p).1).conn
  | dispatchStep (c : Conn) (m : Message) (rest : List Nat) :
      Reachable c → Reachable (Conn.applyDispatch c m rest)

/-- A connection paused by an EOF on read, used by witnesses and
counterexamples. -/
def pausedConn : Conn :=
  (Conn.closeWithError Conn.new .EOF).1

/-- A closed connection, used by witnesses. -/
def closedConn : Conn :=
  (Conn.Close Conn.new).1

/-- A sub-stream map with one open entry, used by witnesses. -/
def streamsEx : List (Nat × StreamEntry) :=
  [(3, { closed := false, buf := [5] })]

/-- A STREAMCLOSE header for stream id 3, used by witnesses. -/
def mStreamClose : Message :=
  { From := 0, To := 0, Id := 3, Operation := STREAMCLOSE
    ContentLength := 0 }

/-- A handler that echoes the incoming header with a zero
`ContentLength` and an empty reply payload, used by witnesses. -/
def routerFuncEx : ClientRouterFunc :=
  fun m _ => (some { m with ContentLength := 0 }, [], Action.NONE)

/-- A router table registering `routerFuncEx` for operation 4, used by
witnesses. -/
def routerEx : Nat → Option ClientRouterFunc :=
  fun op => if op = 4 then some routerFuncEx else none

theorem beUint32_putUint32 (v : Nat) (h : v < 4294967296) :
    beUint32 (putUint32 v) = v := by
  simp only [putUint32, beUint32]
  omega

theorem beUint64_putUint64 (v : Nat) (h : v < 18446744073709551616) :
    beUint64 (putUint64 v) = v := by
  simp only [putUint64, beUint64]
  omega

theorem decodeMessage_encodeMessage (m : Message) (p : List Nat) :
    decodeMessage (encodeMessage m ++ p) =
      some
        { From := beUint32 (putUint32 m.From)
          To := beUint32 (putUint32 m.To)
          Id := beUint64 (putUint64 m.Id)
          Operation := beUint32 (putUint32 m.Operation)
          ContentLength := beUint64 (putUint64 m.ContentLength) } := rfl

theorem encodeMessage_drop (m : Message) (p : List Nat) :
    (encodeMessage m ++ p).drop MessageSize = p := rfl

/-- C1: encoding a header with WriteMessage's big-endian fixed-offset
encoder and decoding the result with the reader worker's decoder is the
identity on all five header fields, and the bytes following the header
are exactly the payload (of which the reader consumes precisely
`ContentLength` bytes). -/
theorem writeMessage_readLoop_roundtrip (m : Message) (p : List Nat)
    (hF : m.From < 4294967296) (hT : m.To < 4294967296)
    (hI : m.Id < 18446744073709551616) (hO : m.Operation < 4294967296)
    (hC : m.ContentLength < 18446744073709551616)
    (hp : p.length = m.ContentLength) :
    decodeMessage (encodeMessage m ++ p) = some m ∧
    slice (encodeMessage m ++ p) MessageSize m.ContentLength = p := by
  constructor
  · rw [decodeMessage_encodeMessage, beUint32_putUint32 m.From hF,
      beUint32_putUint32 m.To hT, beUint64_putUint64 m.Id hI,
      beUint32_putUint32 m.Operation hO,
      beUint64_putUint64 m.ContentLength hC]
  · show ((encodeMessage m ++ p).drop MessageSize).take m.ContentLength = p
    rw [encodeMessage_drop, ← hp, List.take_length]

/-- Witness for C1 at a concrete header and payload. -/
theorem writeMessage_readLoop_roundtrip_witness :
    decodeMessage (encodeMessage mEx ++ [9, 10]) = some mEx ∧
    slice (encodeMessage mEx ++ [9, 10]) MessageSize mEx.ContentLength =
      [9, 10] :=
  writeMessage_readLoop_roundtrip mEx [9, 10] (by decide) (by decide)
    (by decide) (by decide) (by decide) (by decide)

@[simp] theorem appendWriter_error (c : Conn) (bs : List Nat) :
    (Conn.appendWriter c bs).error = c.error := rfl

@[simp] theorem appendWriter_state (c : Conn) (bs : List Nat) :
    (Conn.appendWriter c bs).state = c.state := rfl

@[simp] theorem appendWriter_writerBuf (c : Conn) (bs : List Nat) :
    (Conn.appendWriter c bs).writerBuf = c.writerBuf ++ bs := rfl

@[simp] theorem postFlush_error (c : Conn) :
    (Conn.postFlush c).error = c.error := by
  unfold Conn.postFlush
  split <;> rfl

@[simp] theorem postFlush_state (c : Conn) :
    (Conn.postFlush c).state = c.state := by
  unfold Conn.postFlush
  split <;> rfl

@[simp] theorem postFlush_writerBuf (c : Conn) :
    (Conn.postFlush c).writerBuf = c.writerBuf := by
  unfold Conn.postFlush
  split <;> rfl

theorem error_isSome_pause (c : Conn) (h : c.error.isSome) :
    (Conn.pause c).1.error.isSome := by
  simp only [Conn.pause, Conn.killGoroutines]
  split_ifs <;> simp_all

theorem error_isSome_close (c : Conn) (h : c.error.isSome) :
    (Conn.close c).1.error.isSome := by
  by_cases h1 : c.state = .CONNECTED
  · simp only [Conn.close, Conn.killGoroutines, h1, if_pos]
    by_cases h2 : 0 < c.writerBuf.length <;> simp [h2]
  · by_cases h3 : c.state = .PAUSED <;> simp [Conn.close, h1, h3, h]

theorem error_isSome_closeWithError (c : Conn) (e : GoError)
    (h : c.error.isSome) : (Conn.closeWithError c e).1.error.isSome := by
  by_cases ht : isTimeout e
  · simp [Conn.closeWithError, ht, h]
  · by_cases he : e = .EOF ∨ e = .ErrClosedPipe
    · have hp := error_isSome_pause c h
      simp only [Conn.closeWithError, ht, he]
      split_ifs <;> simp_all
    · have hc := error_isSome_close c h
      simp only [Conn.closeWithError, ht, he]
      split_ifs <;> simp_all

theorem error_isSome_writeMessage (c : Conn) (m : Message)
    (ct : Option (List Nat)) (h : c.error.isSome) :
    (Conn.WriteMessage c m ct).1.error.isSome := by
  simp only [Conn.WriteMessage]
  split_ifs with h1 h2
  · exact h
  · exact h
  · cases ct <;> simp [h]

theorem error_isSome_readMessage (c : Conn) (h : c.error.isSome) :
    (Conn.ReadMessage c).1.error.isSome := by
  cases hq : c.queue with
  | nil =>
    simp only [Conn.ReadMessage, hq]
    split_ifs with h1 h2
    · exact h
    · exact error_isSome_closeWithError c .QueueClosed h
    · exact h
  | cons x rest =>
    simp only [Conn.ReadMessage, hq]
    split_ifs with h1
    · exact h
    · simp [h]

theorem error_isSome_flush (c : Conn) (h : c.error.isSome) :
    (Conn.Flush c).1.error.isSome := by
  simp only [Conn.Flush]
  split_ifs <;> simp_all

theorem error_isSome_connClose (c : Conn) (h : c.error.isSome) :
    (Conn.Close c).1.error.isSome := by
  have hc := error_isSome_close c h
  simp only [Conn.Close]
  split_ifs <;> simp_all

theorem error_isSome_streamWrite (s : StreamConn) (p : List Nat)
    (h : s.conn.error.isSome) :
    ((StreamConn.Write s p).1).conn.error.isSome := by
  simp only [StreamConn.Write]
  split_ifs <;> simp_all

theorem error_isSome_applyDispatch (c : Conn) (m : Message)
    (rest : List Nat) (h : c.error.isSome) :
    (Conn.applyDispatch c m rest).error.isSome := by
  simp [Conn.applyDispatch, h]

theorem reachable_error_isSome (c : Conn) (h : Reachable c) :
    c.error.isSome := by
  induction h with
  | new => rfl
  | writeMessage c m ct _ ih => exact error_isSome_writeMessage c m ct ih
  | readMessage c _ ih => exact error_isSome_readMessage c ih
  | flushStep c _ ih => exact error_isSome_flush c ih
  | closeWithErrorStep c e _ ih => exact error_isSome_closeWithError c e ih
  | closeStep c _ ih => exact error_isSome_connClose c ih
  | rawStep c _ ih => exact error_isSome_close c ih
  | pauseStep c _ ih => exact error_isSome_pause c ih
  | streamWriteStep c id cl b p _ ih =>
    exact error_isSome_streamWrite ⟨c, id, cl, b⟩ p ih
  | dispatchStep c m rest _ ih => exact error_isSome_applyDispatch c m rest ih

/-- C2: on a reachable connection whose state is not CONNECTED,
`WriteMessage`, `ReadMessage` and sub-stream `Write` all return a
non-nil error and leave the connection (its buffered writer and the
underlying stream included) untouched. -/
theorem notConnected_rejects (c : Conn) (h : Reachable c)
    (hs : c.state ≠ .CONNECTED) (m : Message) (ct : Option (List Nat))
    (id : Nat) (cl : Bool) (b p : List Nat) :
    (Conn.WriteMessage c m ct).1 = c ∧
    (Conn.WriteMessage c m ct).2 ≠ none ∧
    (Conn.ReadMessage c).1 = c ∧
    (Conn.ReadMessage c).2 = .fail (Conn.Error c) ∧
    Conn.Error c ≠ none ∧
    (StreamConn.Write ⟨c, id, cl, b⟩ p).1 = ⟨c, id, cl, b⟩ ∧
    (StreamConn.Write ⟨c, id, cl, b⟩ p).2.1 = 0 ∧
    (StreamConn.Write ⟨c, id, cl, b⟩ p).2.2 ≠ none := by
  have he : Conn.Error c ≠ none := by
    have hi := reachable_error_isSome c h
    simp only [Conn.Error]
    exact Option.isSome_iff_ne_none.mp hi
  have hw : (Conn.WriteMessage c m ct).1 = c ∧
      (Conn.WriteMessage c m ct).2 ≠ none := by
    simp only [Conn.WriteMessage]
    split_ifs with h1
    · exact ⟨rfl, by simp⟩
    · exact ⟨rfl, he⟩
  have hr : (Conn.ReadMessage c).1 = c ∧
      (Conn.ReadMessage c).2 = .fail (Conn.Error c) := by
    unfold Conn.ReadMessage
    rw [if_pos hs]
    exact ⟨rfl, rfl⟩
  have hsw : (StreamConn.Write ⟨c, id, cl, b⟩ p).1 = ⟨c, id, cl, b⟩ ∧
      (StreamConn.Write ⟨c, id, cl, b⟩ p).2.1 = 0 ∧
      (StreamConn.Write ⟨c, id, cl, b⟩ p).2.2 ≠ none := by
    simp only [StreamConn.Write]
    split_ifs
    exact ⟨rfl, rfl, he⟩
  exact ⟨hw.1, hw.2, hr.1, hr.2, he, hsw.1, hsw.2.1, hsw.2.2⟩

/-- Witness for C2 at the paused connection. -/
theorem notConnected_rejects_witness :
    (Conn.WriteMessage pausedConn mEx none).1 = pausedConn ∧
    (Conn.WriteMessage pausedConn mEx none).2 ≠ none ∧
    (Conn.ReadMessage pausedConn).1 = pausedConn ∧
    (Conn.ReadMessage pausedConn).2 = .fail (Conn.Error pausedConn) ∧
    Conn.Error pausedConn ≠ none ∧
    (StreamConn.Write ⟨pausedConn, 7, false, []⟩ [1]).1 =
      ⟨pausedConn, 7, false, []⟩ ∧
    (StreamConn.Write ⟨pausedConn, 7, false, []⟩ [1]).2.1 = 0 ∧
    (StreamConn.Write ⟨pausedConn, 7, false, []⟩ [1]).2.2 ≠ none :=
  notConnected_rejects pausedConn
    (Reachable.closeWithErrorStep Conn.new .EOF Reachable.new)
    (by decide) mEx none 7 false [] [1]

/-- C3: on a CONNECTED connection, `closeWithError` returns timeout
errors unchanged without touching the state, transitions to PAUSED and
returns `ConnectionPaused` on EOF or closed-pipe, and for any other
error transitions to CLOSED, stores the error, and returns it. -/
theorem closeWithError_policy (c : Conn) (e : GoError)
    (hs : c.state = .CONNECTED) :
    (isTimeout e = true → Conn.closeWithError c e = (c, some e)) ∧
    ((e = .EOF ∨ e = .ErrClosedPipe) →
      (Conn.closeWithError c e).1.state = .PAUSED ∧
      (Conn.closeWithError c e).2 = some .ConnectionPaused) ∧
    (isTimeout e = false → ¬(e = .EOF ∨ e = .ErrClosedPipe) →
      (Conn.closeWithError c e).1.state = .CLOSED ∧
      (Conn.closeWithError c e).1.error = some e ∧
      (Conn.closeWithError c e).2 = some e) := by
  refine ⟨?_, ?_, ?_⟩
  · intro ht
    simp [Conn.closeWithError, ht]
  · intro he
    have ht : isTimeout e = false := by
      rcases he with h | h <;> subst h <;> rfl
    simp [Conn.closeWithError, ht, he, Conn.pause, hs, Conn.killGoroutines]
  · intro ht he
    have h2 : (Conn.close c).2 = none := by
      simp only [Conn.close, Conn.killGoroutines, hs, if_pos]
      by_cases hb : 0 < c.writerBuf.length <;> simp [hb]
    have h3 : (Conn.close c).1.state = .CLOSED := by
      simp only [Conn.close, Conn.killGoroutines, hs, if_pos]
      by_cases hb : 0 < c.writerBuf.length <;> simp [hb]
    simp [Conn.closeWithError, ht, he, h2, h3]

/-- Witness for C3 at a CONNECTED connection and a generic error. -/
theorem closeWithError_policy_witness :
    (Conn.closeWithError Conn.new (.otherErr 0)).1.state = .CLOSED ∧
    (Conn.closeWithError Conn.new (.otherErr 0)).1.error =
      some (.otherErr 0) ∧
    (Conn.closeWithError Conn.new (.otherErr 0)).2 = some (.otherErr 0) :=
  (closeWithError_policy Conn.new (.otherErr 0) rfl).2.2 rfl (by decide)

theorem close_result_state (c : Conn) : (Conn.close c).1.state = .CLOSED := by
  by_cases h1 : c.state = .CONNECTED
  · simp only [Conn.close, Conn.killGoroutines, h1, if_pos]
    by_cases h2 : 0 < c.writerBuf.length <;> simp [h2]
  · by_cases h3 : c.state = .PAUSED
    · simp [Conn.close, h1, h3]
    · have h4 : c.state = .CLOSED := by
        cases hcs : c.state <;> simp_all
      simp [Conn.close, h1, h3, h4]

theorem close_err_cases (c : Conn) :
    (Conn.close c).2 = none ∨
    ((Conn.close c).2 = some .ConnectionClosed ∧ (Conn.close c).1 = c) := by
  by_cases h1 : c.state = .CONNECTED
  · left
    simp only [Conn.close, Conn.killGoroutines, h1, if_pos]
    by_cases h2 : 0 < c.writerBuf.length <;> simp [h2]
  · by_cases h3 : c.state = .PAUSED
    · left
      simp [Conn.close, h1, h3]
    · right
      simp [Conn.close, h1, h3]

/-- C6: `Close` always leaves the connection CLOSED and returns nil; a
call on an already-closed connection returns nil and changes nothing,
so the second of two consecutive calls is a no-op returning nil. -/
theorem close_idempotent (c : Conn) :
    (Conn.Close c).1.state = .CLOSED ∧
    (Conn.Close c).2 = none ∧
    (c.state = .CLOSED → Conn.Close c = (c, none)) ∧
    Conn.Close (Conn.Close c).1 = ((Conn.Close c).1, none) := by
  have hclosed : ∀ d : Conn, d.state = .CLOSED → Conn.Close d = (d, none) := by
    intro d hd
    have h1 : Conn.close d = (d, some .ConnectionClosed) := by
      simp [Conn.close, hd]
    simp [Conn.Close, h1]
  have hstate : (Conn.Close c).1.state = .CLOSED := by
    simp only [Conn.Close]
    split_ifs with hh
    · exact close_result_state c
    · simpa using close_result_state c
  have herr : (Conn.Close c).2 = none := by
    simp only [Conn.Close]
    split_ifs with hh
    · rfl
    · rcases close_err_cases c with h | h
      · simpa using h
      · exact absurd h.1 hh
  exact ⟨hstate, herr, hclosed c, hclosed (Conn.Close c).1 hstate⟩

/-- Witness for C6 at an already-closed connection. -/
theorem close_idempotent_witness :
    Conn.Close closedConn = (closedConn, none) :=
  (close_idempotent closedConn).2.2.1 (by decide)

/-- C5: a non-nil payload whose length differs from the header's
`ContentLength` makes `WriteMessage` fail with `InvalidContentLength`
and leave the connection — writer buffer, flusher channel and state —
exactly as it was. -/
theorem writeMessage_invalid_content_length (c : Conn) (m : Message)
    (p : List Nat) (h : m.ContentLength ≠ p.length) :
    Conn.WriteMessage c m (some p) = (c, some .InvalidContentLength) := by
  simp [Conn.WriteMessage, h]

/-- Witness for C5 at a concrete mismatched payload. -/
theorem writeMessage_invalid_content_length_witness :
    Conn.WriteMessage Conn.new mEx (some [9]) =
      (Conn.new, some .InvalidContentLength) :=
  writeMessage_invalid_content_length Conn.new mEx [9] (by decide)

/-- C10: with a nil payload the length check is skipped even when
`ContentLength` is positive: on a CONNECTED connection the call
returns nil, and only the `MessageSize` header bytes — which announce
`ContentLength` payload bytes that are never written — are appended to
the buffered writer. -/
theorem writeMessage_nil_content_skips_check (c : Conn) (m : Message)
    (hs : c.state = .CONNECTED) (_hpos : m.ContentLength > 0) :
    (Conn.WriteMessage c m none).2 = none ∧
    (Conn.WriteMessage c m none).1.writerBuf =
      c.writerBuf ++ encodeMessage m ∧
    (encodeMessage m).length = MessageSize := by
  refine ⟨?_, ?_, rfl⟩
  · simp [Conn.WriteMessage, hs]
  · simp [Conn.WriteMessage, hs]

/-- Witness for C10 at a concrete header announcing two payload
bytes. -/
theorem writeMessage_nil_content_skips_check_witness :
    (Conn.WriteMessage Conn.new mEx none).2 = none ∧
    (Conn.WriteMessage Conn.new mEx none).1.writerBuf =
      Conn.new.writerBuf ++ encodeMessage mEx ∧
    (encodeMessage mEx).length = MessageSize :=
  writeMessage_nil_content_skips_check Conn.new mEx rfl (by decide)

/-- C7: a STREAMCLOSE frame consumes no payload bytes; when its stream
id is in the map, the stream's close flag is set and the id removed,
and when the id is absent the map is unchanged. -/
theorem streamClose_dispatch (streams : List (Nat × StreamEntry))
    (msg : Message) (rest : List Nat)
    (hop : msg.Operation = STREAMCLOSE) :
    (dispatchFrame streams msg rest).consumed = 0 ∧
    (∀ e, streams.lookup msg.Id = some e →
      (dispatchFrame streams msg rest).streamConns =
        removeStream streams msg.Id ∧
      (dispatchFrame streams msg rest).closedStream =
        some (msg.Id, { e with closed := true })) ∧
    (streams.lookup msg.Id = none →
      (dispatchFrame streams msg rest).streamConns = streams ∧
      (dispatchFrame streams msg rest).closedStream = none) := by
  unfold dispatchFrame
  rw [if_pos hop]
  cases hl : streams.lookup msg.Id <;> simp_all

/-- Witness for C7 at a map containing the closed stream's id. -/
theorem streamClose_dispatch_witness :
    (dispatchFrame streamsEx mStreamClose [7]).consumed = 0 ∧
    (dispatchFrame streamsEx mStreamClose [7]).streamConns =
      removeStream streamsEx 3 ∧
    (dispatchFrame streamsEx mStreamClose [7]).closedStream =
      some (3, { closed := true, buf := [5] }) := by
  have h := streamClose_dispatch streamsEx mStreamClose [7] rfl
  exact ⟨h.1, (h.2.1 { closed := false, buf := [5] } rfl).1,
    (h.2.1 { closed := false, buf := [5] } rfl).2⟩

/-- C8 counterexample: on a reachable connection paused by an EOF, a
sub-stream `Write` returns `ConnectionPaused`, not `ConnectionClosed`,
although the parent is not CONNECTED. -/
theorem streamWrite_paused_returns_paused :
    (StreamConn.Write ⟨pausedConn, 7, false, []⟩ [1, 2]).2.1 = 0 ∧
    (StreamConn.Write ⟨pausedConn, 7, false, []⟩ [1, 2]).2.2 =
      some .ConnectionPaused ∧
    pausedConn.state ≠ .CONNECTED ∧
    some GoError.ConnectionPaused ≠ some GoError.ConnectionClosed ∧
    Reachable pausedConn :=
  ⟨by decide, by decide, by decide, by decide,
    Reachable.closeWithErrorStep Conn.new .EOF Reachable.new⟩

/-- C8 (amended): a locally closed sub-stream on a CONNECTED parent
returns 0 and `ConnectionClosed`; when the parent is not CONNECTED the
call returns 0 and the parent's stored error, which need not be
`ConnectionClosed`. -/
theorem streamWrite_closed_or_not_connected (s : StreamConn)
    (p : List Nat) :
    (s.conn.state = .CONNECTED → s.closed = true →
      StreamConn.Write s p = (s, 0, some .ConnectionClosed)) ∧
    (s.conn.state ≠ .CONNECTED →
      StreamConn.Write s p = (s, 0, Conn.Error s.conn)) := by
  constructor
  · intro h1 h2
    simp [StreamConn.Write, h1, h2]
  · intro h1
    simp [StreamConn.Write, h1]

/-- Witness for the amended C8 at a closed sub-stream of a CONNECTED
parent. -/
theorem streamWrite_closed_or_not_connected_witness :
    StreamConn.Write ⟨Conn.new, 7, true, []⟩ [1] =
      (⟨Conn.new, 7, true, []⟩, 0, some .ConnectionClosed) :=
  (streamWrite_closed_or_not_connected ⟨Conn.new, 7, true, []⟩ [1]).1
    rfl rfl

/-- C9: the router loop discards a packet when no handler is registered
for its operation, and when a handler runs, a reply is handed to
`WriteMessage` exactly when the returned header is non-nil and its
`ContentLength` equals the length of the returned payload. -/
theorem reactor_reply_iff (router : Nat → Option ClientRouterFunc)
    (msg : Message) (content : Option (List Nat)) :
    (router msg.Operation = none →
      reactorStep router msg content = (none, .NONE)) ∧
    (∀ f, router msg.Operation = some f →
      (reactorStep router msg content).1 =
        (match (f msg (reactorInput msg content)).1 with
          | some h =>
            if h.ContentLength = (f msg (reactorInput msg content)).2.1.length
            then some (h, (f msg (reactorInput msg content)).2.1)
            else none
          | none => none)) ∧
    (∀ f, router msg.Operation = some f →
      ((reactorStep router msg content).1 ≠ none ↔
        ∃ h, (f msg (reactorInput msg content)).1 = some h ∧
          h.ContentLength =
            (f msg (reactorInput msg content)).2.1.length)) := by
  refine ⟨?_, ?_, ?_⟩
  · intro h
    simp [reactorStep, h]
  · intro f h
    simp only [reactorStep, h]
    cases hf : (f msg (reactorInput msg content)).1 with
    | none => simp [hf]
    | some hd =>
      simp only [hf]
      split_ifs <;> rfl
  · intro f h
    simp only [reactorStep, h]
    cases hf : (f msg (reactorInput msg content)).1 with
    | none => simp [hf]
    | some hd =>
      simp only [hf]
      split_ifs with hc <;> simp_all

/-- Witness for C9 at a registered handler whose reply header matches
its payload length. -/
theorem reactor_reply_iff_witness :
    (reactorStep routerEx mEx (some [9, 10])).1 =
      some ({ mEx with ContentLength := 0 }, []) := by
  have h := (reactor_reply_iff routerEx mEx (some [9, 10])).2.1
    routerFuncEx rfl
  exact h

/-- C4 counterexample: a freshly wrapped connection is CONNECTED, yet
`Error()` already returns `ConnectionClosed` — the error cell is
initialized non-nil, so `Error()` does not return nil while
CONNECTED. -/
theorem new_connected_error_non_nil :
    Conn.new.state = .CONNECTED ∧
    Conn.Error Conn.new = some .ConnectionClosed ∧
    Conn.Error Conn.new ≠ none := by
  refine ⟨rfl, rfl, ?_⟩
  simp [Conn.Error, Conn.new]

/-- C4 (amended): in every reachable connection state `Error()` returns
a non-nil error — in particular whenever the state is PAUSED or CLOSED;
every transition out of CONNECTED stores a non-nil error, and the cell
is already initialized to `ConnectionClosed` at construction, so it is
non-nil even while CONNECTED. -/
theorem reachable_Error_non_nil (c : Conn) (h : Reachable c) :
    Conn.Error c ≠ none := by
  have hi := reachable_error_isSome c h
  simp only [Conn.Error]
  exact Option.isSome_iff_ne_none.mp hi

/-- Witness for the amended C4 at the paused connection. -/
theorem reachable_Error_non_nil_witness :
    Conn.Error pausedConn ≠ none :=
  reachable_Error_non_nil pausedConn
    (Reachable.closeWithErrorStep Conn.new .EOF Reachable.new)

end Frisbee
